import Mathlib

/-!
Verification of the MediaMiner multi-provider LLM dispatch core
(`src/processors/llm_client.py`): the `LLMClient` adaptive concurrency
controller (`record_rate_limit`, `record_success`,
`reset_rate_limit_tracking`) and the provider-failover dispatch loop
(`generate` / `_try_provider` / `_call_gemini` / `_call_openai_compatible`).

Modelling conventions:
* Python integers are unbounded, so counters are `Nat` and worker counts
  are `Int` (the source only adds or subtracts 1 and clamps, and every
  reachable value is tiny).
* `time.time()` float timestamps are modelled as integer seconds (`Int`):
  the source only ever subtracts two timestamps and compares the result
  with the literal 60, so the integer-seconds abstraction preserves the
  decay-window behaviour.
* Network transports, `os.getenv`, the `lms` bring-up subprocess and the
  wall clock are oracles packaged in a `World`; transport calls are
  counted so that the n-th transport call reads the n-th oracle entry.
* Python `Optional[str]` is `Option String`; Python truthiness of a
  string is `s != ""` and of an optional value is `truthyOpt`.
* `print` statements are pure observability and are not modelled;
  `time.sleep(delay)` in the backoff branch is recorded in a `sleeps`
  log so the delay policy can be stated.
-/

namespace MediaMiner

/-! ### Python string helpers

Structural (kernel-computable) models of the Python string operations the
source uses: `sub in s`, `s.lower()`, `s.split(sep)`. -/

/-- `List.isPrefixOf sub l || ...` over every suffix: Python `sub in s`
on the character lists. -/
def pyInL (sub : List Char) : List Char → Bool
  | [] => List.isPrefixOf sub []
  | c :: cs => List.isPrefixOf sub (c :: cs) || pyInL sub cs

/-- Python `sub in s` (contiguous substring test). -/
def pyIn (sub s : String) : Bool := pyInL sub.data s.data

/-- Python `s.lower()` (ASCII case folding suffices for the source's
literal patterns). -/
def pyLower (s : String) : String := ⟨s.data.map Char.toLower⟩

/-- Worker for `pySplit`. The fuel argument is an upper bound on the
number of characters consumed; `pySplit` passes `length + 1`, which
always suffices because every step consumes at least one character
(the separators used by the source are nonempty). -/
def pySplitAux (sep : List Char) : Nat → List Char → List Char → List (List Char)
  | _, [], acc => [acc.reverse]
  | 0, s, acc => [acc.reverse ++ s]
  | fuel + 1, c :: cs, acc =>
    if List.isPrefixOf sep (c :: cs) then
      acc.reverse :: pySplitAux sep fuel ((c :: cs).drop sep.length) []
    else
      pySplitAux sep fuel cs (c :: acc)

/-- Python `s.split(sep)` for a nonempty separator: non-overlapping,
left-to-right. -/
def pySplit (s sep : String) : List String :=
  (pySplitAux sep.data (s.data.length + 1) s.data []).map fun l => ⟨l⟩

/-- Python truthiness of a `str`. -/
def truthyStr (s : String) : Bool := s != ""

/-- Python truthiness of an `Optional[str]` (`None` and `""` are falsy). -/
def truthyOpt : Option String → Bool
  | none => false
  | some s => truthyStr s

/-! ### ConcurrencyController state (`LLMClient.__init__`, lines 56-66)

The Python attributes `_rate_limit_count`, `_success_count`,
`_last_rate_limit_time`, `_recommended_workers`, `_max_workers`,
`_min_workers`, `current_provider`, `retry_count`, `max_retries` are
written without the leading underscore. -/

structure ClientState where
  current_provider : Option String
  retry_count : Nat
  max_retries : Nat
  rate_limit_count : Nat
  success_count : Nat
  last_rate_limit_time : Int
  recommended_workers : Int
  max_workers : Int
  min_workers : Int
deriving Repr, DecidableEq

/-- The state built by `LLMClient.__init__`. -/
def initClient : ClientState :=
  { current_provider := none
    retry_count := 0
    max_retries := 3
    rate_limit_count := 0
    success_count := 0
    last_rate_limit_time := 0
    recommended_workers := 10
    max_workers := 10
    min_workers := 2 }

/-- `LLMClient.record_rate_limit` (lines 68-86); `t` is the value
`time.time()` returns during the call. -/
def record_rate_limit (t : Int) (s : ClientState) : ClientState :=
  let c0 := if t - s.last_rate_limit_time > 60 then 0 else s.rate_limit_count
  let c1 := c0 + 1
  { s with
    rate_limit_count := c1
    success_count := 0
    last_rate_limit_time := t
    recommended_workers :=
      if c1 ≥ 2 then max s.min_workers (s.recommended_workers - 1)
      else s.recommended_workers }

/-- `LLMClient.record_success` (lines 88-98). -/
def record_success (s : ClientState) : ClientState :=
  let c := s.success_count + 1
  if c ≥ 5 ∧ s.recommended_workers < s.max_workers then
    { s with
      success_count := 0
      recommended_workers := min s.max_workers (s.recommended_workers + 1) }
  else
    { s with success_count := c }

/-- `LLMClient.get_recommended_workers` (lines 100-102). -/
def get_recommended_workers (s : ClientState) : Int := s.recommended_workers

/-- `LLMClient.reset_rate_limit_tracking` (lines 104-108): the batch
reset. It does not touch `_last_rate_limit_time`. -/
def reset_rate_limit_tracking (s : ClientState) : ClientState :=
  { s with
    rate_limit_count := 0
    success_count := 0
    recommended_workers := s.max_workers }

/-! ### Provider registry (`LLMClient.PROVIDERS`, lines 21-54) -/

/-- One entry of `LLMClient.PROVIDERS`; `env_keys = none` models the
absence of the `"env_keys"` dictionary key. -/
structure Provider where
  name : String
  priority : Nat
  model : String
  env_keys : Option (List String)
  base_url : Option String
deriving Repr, DecidableEq

def cerebrasP : Provider :=
  { name := "cerebras"
    priority := 1
    model := "qwen-3-235b-a22b-instruct-2507"
    env_keys := some ["CEREBRAS_API_KEY_1", "CEREBRAS_API_KEY_2",
                      "CEREBRAS_API_KEY_3", "CEREBRAS_API_KEY_4"]
    base_url := some "https://api.cerebras.ai/v1" }

def geminiP : Provider :=
  { name := "gemini"
    priority := 2
    model := "gemini-2.5-flash-lite"
    env_keys := some ["GEMINI_API_KEY_1", "GEMINI_API_KEY_2"]
    base_url := none }

def openrouterP : Provider :=
  { name := "openrouter"
    priority := 3
    model := "google/gemini-2.0-flash-exp:free"
    env_keys := some ["OPENROUTER_API_KEY"]
    base_url := some "https://openrouter.ai/api/v1" }

def lmstudioP : Provider :=
  { name := "lmstudio"
    priority := 4
    model := "qwen/qwen3-30b-a3b-2507"
    env_keys := none
    base_url := some "http://localhost:1234/v1" }

def openaiP : Provider :=
  { name := "openai"
    priority := 5
    model := "gpt-4o-mini"
    env_keys := some ["OPENAI_API_KEY"]
    base_url := none }

/-- `LLMClient.PROVIDERS` in source order. -/
def PROVIDERS : List Provider := [cerebrasP, geminiP, openrouterP, lmstudioP, openaiP]

/-! ### Error classification (string sniffing in `_try_provider`) -/

/-- Line 238: `"429" in str(e) or "rate limit" in str(e).lower() or
"quota" in str(e).lower()`. -/
def isRateLimitMsg (e : String) : Bool :=
  pyIn "429" e || pyIn "rate limit" (pyLower e) || pyIn "quota" (pyLower e)

/-- Line 217: `"Connection" in str(lm_err) or "refused" in
str(lm_err).lower()`. -/
def isConnMsg (e : String) : Bool :=
  pyIn "Connection" e || pyIn "refused" (pyLower e)

/-- Lines 299-301: the provider label computed from `base_url` inside
`_call_openai_compatible`. The `getD` defaults are unreachable for the
registry's URLs (each contains exactly one `"//"`); Python would raise
`IndexError` where the default is used. -/
def providerLabel (base_url : String) : String :=
  if pyIn "openai.com" base_url then "openai"
  else if pyIn "localhost" base_url then "lmstudio"
  else ((pySplit ((pySplit base_url "//").getD 1 "") ".").getD 0 "")

/-! ### Dispatch-time environment: requests, oracles, instrumented state -/

/-- The arguments of one `generate` call (`DispatchRequest`). -/
structure Req where
  prompt : String
  system_prompt : Option String
  max_tokens : Nat
  temperature : ℚ
deriving Repr, DecidableEq

/-- One transport invocation, logged in order: the protocol family
(`"gemini"` or `"chat"`), the endpoint, the credential passed, the model
id and the request. -/
structure CallRec where
  family : String
  base_url : Option String
  api_key : Option String
  model : String
  req : Req
deriving Repr, DecidableEq

/-- The external world a `generate` call runs against.  `env` is
`os.getenv`.  `geminiRaw n` is the `response.text` (or the exception
message, as `.error`) of the n-th transport call when that call goes
through the Gemini SDK; `chatRaw n` likewise gives the list of
`choices[i].message.content` for an OpenAI-compatible call.  `lmsStart n`
is the outcome of the n-th `_auto_start_lmstudio` invocation, and
`clock n` is `time.time()` at the n-th `record_rate_limit`. -/
structure World where
  env : String → Option String
  geminiRaw : Nat → Except String String
  chatRaw : Nat → Except String (List String)
  lmsStart : Nat → Bool
  clock : Nat → Int

/-- Dispatcher state threaded through one or more `generate` calls: the
client/controller state plus instrumentation (the ordered transport-call
log, the backoff sleeps issued, the number of `_auto_start_lmstudio`
invocations, the number of `record_rate_limit` events — used to key
`clock` — and the number of `record_success` invocations). -/
structure St where
  client : ClientState
  calls : List CallRec
  sleeps : List Nat
  startAttempts : Nat
  ticks : Nat
  successCalls : Nat
deriving Repr, DecidableEq

def initSt : St :=
  { client := initClient, calls := [], sleeps := [],
    startAttempts := 0, ticks := 0, successCalls := 0 }

/-- `LLMClient._call_gemini` (lines 250-276): the SDK call either raises
(`.error`) or yields `response.text`; a truthy text sets
`current_provider = "gemini"` and is returned, otherwise the method
returns `None`. -/
def call_gemini (w : World) (key : Option String) (model : String) (req : Req)
    (st : St) : Except String (Option String) × St :=
  let idx := st.calls.length
  let st1 := { st with calls := st.calls ++
    [{ family := "gemini", base_url := none, api_key := key,
       model := model, req := req }] }
  match w.geminiRaw idx with
  | .error e => (.error e, st1)
  | .ok t =>
    if truthyStr t then
      (.ok (some t), { st1 with client := { st1.client with current_provider := some "gemini" } })
    else
      (.ok none, st1)

/-- `LLMClient._call_openai_compatible` (lines 278-306): the call either
raises (`.error`) or yields the response's choices; with a nonempty
choice list whose first content is truthy, `current_provider` is set to
the label derived from `base_url` and the content is returned, otherwise
the method returns `None`. -/
def call_openai_compatible (w : World) (base_url : String) (key : Option String)
    (model : String) (req : Req) (st : St) : Except String (Option String) × St :=
  let idx := st.calls.length
  let st1 := { st with calls := st.calls ++
    [{ family := "chat", base_url := some base_url, api_key := key,
       model := model, req := req }] }
  match w.chatRaw idx with
  | .error e => (.error e, st1)
  | .ok choices =>
    match choices with
    | [] => (.ok none, st1)
    | c :: _ =>
      if truthyStr c then
        (.ok (some c), { st1 with client := { st1.client with current_provider := some (providerLabel base_url) } })
      else
        (.ok none, st1)

/-- The `except Exception as e` block of `_try_provider` (lines 235-246):
a rate-limit-classified message records a rate-limit event (reading
`time.time()` from the clock oracle) and sleeps
`min(2 ** _rate_limit_count, 16)` seconds; any other message falls
through with no delay and no controller change. -/
def handleErr (w : World) (e : String) (st : St) : St :=
  if isRateLimitMsg e then
    let client1 := record_rate_limit (w.clock st.ticks) st.client
    let delay := min (2 ^ client1.rate_limit_count) 16
    { st with
      client := client1
      ticks := st.ticks + 1
      sleeps := st.sleeps ++ [delay] }
  else st

/-- `self.record_success()` as invoked by the dispatcher, with the ghost
invocation counter bumped. -/
def recordSuccessSt (st : St) : St :=
  { st with client := record_success st.client, successCalls := st.successCalls + 1 }

/-- The `for key_idx, api_key in enumerate(api_keys if api_keys else
[None])` loop of `_try_provider` (lines 198-246), one branch per
protocol family.  The lmstudio branch returns the transport's result
directly (no `record_success`), and on a connection-classified error
performs the one-shot `_auto_start_lmstudio` bring-up and single retry;
every raised error reaches the outer `except` (`handleErr`) and the loop
continues with the next key. -/
def try_keys (w : World) (p : Provider) (req : Req) :
    List (Option String) → St → Option String × St
  | [], st => (none, st)
  | key :: rest, st =>
    if p.name == "gemini" then
      match call_gemini w key p.model req st with
      | (.ok r, st1) =>
        if truthyOpt r then (r, recordSuccessSt st1)
        else try_keys w p req rest st1
      | (.error e, st1) => try_keys w p req rest (handleErr w e st1)
    else if p.name == "lmstudio" then
      let burl := p.base_url.getD "http://localhost:1234/v1"
      match call_openai_compatible w burl (some "lm-studio") p.model req st with
      | (.ok r, st1) => (r, st1)
      | (.error e, st1) =>
        if isConnMsg e then
          let st2 := { st1 with startAttempts := st1.startAttempts + 1 }
          if w.lmsStart st1.startAttempts then
            match call_openai_compatible w burl (some "lm-studio") p.model req st2 with
            | (.ok r, st3) => (r, st3)
            | (.error e2, st3) => try_keys w p req rest (handleErr w e2 st3)
          else
            try_keys w p req rest (handleErr w e st2)
        else
          try_keys w p req rest (handleErr w e st1)
    else
      let burl := p.base_url.getD "https://api.openai.com/v1"
      match call_openai_compatible w burl key p.model req st with
      | (.ok r, st1) =>
        if truthyOpt r then (r, recordSuccessSt st1)
        else try_keys w p req rest st1
      | (.error e, st1) => try_keys w p req rest (handleErr w e st1)

/-- Lines 186-192: the credential resolution of `_try_provider` — each
configured env var in listed order, keeping present, truthy values. -/
def resolveKeys (w : World) (p : Provider) : List String :=
  match p.env_keys with
  | none => []
  | some ks => (ks.filterMap w.env).filter truthyStr

/-- `LLMClient._try_provider` (lines 179-248). -/
def try_provider (w : World) (p : Provider) (req : Req) (st : St) :
    Option String × St :=
  let api_keys := resolveKeys w p
  if p.name != "lmstudio" && api_keys.isEmpty then (none, st)
  else
    try_keys w p req
      (if api_keys.isEmpty then [none] else api_keys.map some) st

/-- The `for provider in self.PROVIDERS` loop of `generate`
(lines 170-177): return the first truthy result, else `None`. -/
def generate_over (w : World) (req : Req) :
    List Provider → St → Option String × St
  | [], st => (none, st)
  | p :: ps, st =>
    match try_provider w p req st with
    | (r, st1) => if truthyOpt r then (r, st1) else generate_over w req ps st1

/-- `LLMClient.generate` (lines 156-177). -/
def generate (w : World) (req : Req) (st : St) : Option String × St :=
  generate_over w req PROVIDERS st

/-- A controller state with four consecutive successes recorded and a
previously throttled worker count, for exercising the step-up branch. -/
def throttled4 : ClientState :=
  { initClient with success_count := 4, recommended_workers := 8 }

/-- The controller states reachable from construction by any sequence of
rate-limit events (at arbitrary clock readings), successes, and batch
resets. -/
inductive Reachable : ClientState → Prop
  | init : Reachable initClient
  | rate (t : Int) (s : ClientState) : Reachable s → Reachable (record_rate_limit t s)
  | succ (s : ClientState) : Reachable s → Reachable (record_success s)
  | reset (s : ClientState) : Reachable s → Reachable (reset_rate_limit_tracking s)

/-! ## C5: unsynchronised interleaving of `record_success`

`llm_client.py` takes no lock anywhere: `record_rate_limit`,
`record_success` and `reset_rate_limit_tracking` mutate
`self._success_count`, `self._rate_limit_count` and
`self._recommended_workers` with plain attribute reads and writes (the
module does not even import `threading`; only the separate
`AdaptiveController` in `scripts/reprocess_v6.py` takes a
`threading.Lock`, around its different counters).  Under CPython a
thread switch may occur between the bytecodes of `record_success`.  The
model below coarsens `record_success` into four atomic phases — the
increment `self._success_count += 1`, the combined threshold test
`self._success_count >= 5 and self._recommended_workers <
self._max_workers`, the worker-count update, and the counter reset.
Merging several bytecodes into one atomic phase only removes
interleavings, so every behaviour exhibited by this model is a
behaviour of the unsynchronised source. -/

/-- The shared attributes touched by the success path. -/
structure SharedCtr where
  success_count : Nat
  recommended_workers : Int
  max_workers : Int
deriving Repr, DecidableEq

/-- Program counter of one thread running `record_success`. -/
inductive SuccessPhase
  | inc
  | chk
  | bump
  | rst
  | fin
deriving Repr, DecidableEq

/-- One thread: its phase, and a ghost flag recording that its threshold
test succeeded. -/
structure ThreadSt where
  ph : SuccessPhase
  passed : Bool
deriving Repr, DecidableEq

/-- One atomic step of a thread executing `record_success`. -/
def microStep (th : ThreadSt) (sh : SharedCtr) : ThreadSt × SharedCtr :=
  match th.ph with
  | .inc =>
    ({ th with ph := .chk }, { sh with success_count := sh.success_count + 1 })
  | .chk =>
    if sh.success_count ≥ 5 ∧ sh.recommended_workers < sh.max_workers then
      ({ ph := .bump, passed := true }, sh)
    else
      ({ th with ph := .fin }, sh)
  | .bump =>
    ({ th with ph := .rst },
      { sh with recommended_workers := min sh.max_workers (sh.recommended_workers + 1) })
  | .rst =>
    ({ th with ph := .fin }, { sh with success_count := 0 })
  | .fin => (th, sh)

/-- Two threads, both executing `record_success` on the shared state. -/
structure TwoThreads where
  a : ThreadSt
  b : ThreadSt
  sh : SharedCtr
deriving Repr, DecidableEq

/-- Advance the thread chosen by the scheduler (`true` = thread a). -/
def schedStep (m : TwoThreads) : Bool → TwoThreads
  | true =>
    let p := microStep m.a m.sh
    { m with a := p.1, sh := p.2 }
  | false =>
    let p := microStep m.b m.sh
    { m with b := p.1, sh := p.2 }

/-- Run a schedule (a list of thread choices). -/
def runSched (m : TwoThreads) : List Bool → TwoThreads
  | [] => m
  | c :: cs => runSched (schedStep m c) cs

/-- Both threads about to run `record_success` on a controller with four
consecutive successes recorded and a throttled worker count of 8 (max 10). -/
def raceStart : TwoThreads :=
  { a := { ph := .inc, passed := false }
    b := { ph := .inc, passed := false }
    sh := { success_count := 4, recommended_workers := 8, max_workers := 10 } }

/-- The alternating schedule: both threads increment, then both test,
then both update, then both reset. -/
def raceSched : List Bool := [true, false, true, false, true, false, true, false]

/-- A serialised schedule: thread a runs to completion, then thread b. -/
def serialSched : List Bool := [true, true, true, true, false, false, false, false]

/-! ## Dispatcher fixtures and unfolding lemmas -/

/-- A request fixture. -/
def reqA : Req :=
  { prompt := "hi", system_prompt := none, max_tokens := 100, temperature := 1 }

/-- A world with no credentials configured, a failing Gemini SDK, and an
OpenAI-compatible transport that returns the single choice "hello". -/
def wLms : World :=
  { env := fun _ => none
    geminiRaw := fun _ => .error "x"
    chatRaw := fun _ => .ok ["hello"]
    lmsStart := fun _ => false
    clock := fun _ => 0 }

/-- A world where every transport call raises a non-rate-limit error and
no credential is configured. -/
def wFail : World :=
  { env := fun _ => none
    geminiRaw := fun _ => .error "gemini down"
    chatRaw := fun _ => .error "Connection refused"
    lmsStart := fun _ => false
    clock := fun _ => 0 }

/-- A world where only the first Gemini credential is present and the
Gemini SDK answers "hello". -/
def wGem : World :=
  { env := fun n => if n == "GEMINI_API_KEY_1" then some "K" else none
    geminiRaw := fun _ => .ok "hello"
    chatRaw := fun _ => .error "connect error"
    lmsStart := fun _ => false
    clock := fun _ => 0 }

/-- A world where only the OpenAI credential is present and the
OpenAI-compatible transport answers "hello". -/
def wOai : World :=
  { env := fun n => if n == "OPENAI_API_KEY" then some "KEY" else none
    geminiRaw := fun _ => .error "x"
    chatRaw := fun _ => .ok ["hello"]
    lmsStart := fun _ => false
    clock := fun _ => 100 }

/-- Every transport outcome in `w` is a failure: each raised error is a
failure by definition, and each returned completion is empty (falsy). -/
def allAttemptsFail (w : World) : Prop :=
  (∀ n t, w.geminiRaw n = .ok t → t = "") ∧
  (∀ n c cs, w.chatRaw n = .ok (c :: cs) → c = "")

/-- The transport-call record of the lmstudio attempt in `wFail`. -/
def lmsCallRec : CallRec :=
  { family := "chat"
    base_url := some "http://localhost:1234/v1"
    api_key := some "lm-studio"
    model := lmstudioP.model
    req := reqA }

/-! ## Controller claims -/

/-- C4: every `record_rate_limit` call zeroes the success counter, stamps
the event time, restarts the consecutive rate-limit counter at 1 when
more than 60 seconds elapsed since the previous event (and otherwise
increments it), and decrements `recommended_workers` by one (floored at
`min_workers`) exactly when the incremented counter is 2 or more. -/
lemma record_rate_limit_count (t : Int) (s : ClientState) :
    (record_rate_limit t s).rate_limit_count
      = (if t - s.last_rate_limit_time > 60 then 0 else s.rate_limit_count) + 1 := rfl

lemma record_rate_limit_workers (t : Int) (s : ClientState) :
    (record_rate_limit t s).recommended_workers
      = if (record_rate_limit t s).rate_limit_count ≥ 2
          then max s.min_workers (s.recommended_workers - 1)
          else s.recommended_workers := rfl

theorem c4_record_rate_limit (s : ClientState) (t : Int) :
    (record_rate_limit t s).success_count = 0 ∧
    (record_rate_limit t s).last_rate_limit_time = t ∧
    (t - s.last_rate_limit_time > 60 → (record_rate_limit t s).rate_limit_count = 1) ∧
    (¬ t - s.last_rate_limit_time > 60 →
      (record_rate_limit t s).rate_limit_count = s.rate_limit_count + 1) ∧
    ((record_rate_limit t s).rate_limit_count ≥ 2 →
      (record_rate_limit t s).recommended_workers
        = max s.min_workers (s.recommended_workers - 1)) ∧
    ((record_rate_limit t s).rate_limit_count < 2 →
      (record_rate_limit t s).recommended_workers = s.recommended_workers) := by
  refine ⟨rfl, rfl, ?_, ?_, ?_, ?_⟩
  · intro h
    rw [record_rate_limit_count, if_pos h]
  · intro h
    rw [record_rate_limit_count, if_neg h]
  · intro h2
    rw [record_rate_limit_workers, if_pos h2]
  · intro h2
    rw [record_rate_limit_workers, if_neg (by omega)]

/-- Concrete instance of C4: a rate-limit event 100 seconds after the
previous one restarts the counter at 1. -/
theorem c4_record_rate_limit_witness :
    ((100 : Int) - initClient.last_rate_limit_time > 60) ∧
    (record_rate_limit 100 initClient).rate_limit_count = 1 :=
  ⟨by decide, (c4_record_rate_limit initClient 100).2.2.1 (by decide)⟩

/-- C2 as stated is false: five consecutive `record_success` calls from
the construction state (where `recommended_workers = max_workers = 10`)
bring the consecutive-success counter to the threshold of 5, yet the
counter is not reset — it stays at 5, because the reset sits inside the
`recommended_workers < max_workers` branch. -/
theorem c2_counterexample :
    (record_success (record_success (record_success (record_success
      (record_success initClient))))).success_count = 5 ∧
    ¬ (record_success (record_success (record_success (record_success
      (record_success initClient))))).success_count = 0 := by
  constructor <;> decide

/-- C2 amended: a `record_success` call that brings the counter to 5 or
more resets it to 0 only when `recommended_workers` was below
`max_workers` at the time; when `recommended_workers` is already at
`max_workers`, the counter is not reset and keeps accumulating. -/
theorem c2_amended_success_reset (s : ClientState) :
    (s.success_count + 1 ≥ 5 → s.recommended_workers < s.max_workers →
      (record_success s).success_count = 0) ∧
    (¬ s.recommended_workers < s.max_workers →
      (record_success s).success_count = s.success_count + 1) := by
  unfold record_success
  constructor
  · intro h1 h2
    simp [h1, h2]
  · intro h
    simp [h]


/-- Concrete instance of the amended C2: at `success_count = 4` and
`recommended_workers = 8 < 10`, the fifth success resets the counter. -/
theorem c2_amended_success_reset_witness :
    (throttled4.success_count + 1 ≥ 5) ∧
    (throttled4.recommended_workers < throttled4.max_workers) ∧
    (record_success throttled4).success_count = 0 :=
  ⟨by decide, by decide, (c2_amended_success_reset throttled4).1 (by decide) (by decide)⟩


/-- C3: on every reachable controller state,
`min_workers ≤ recommended_workers ≤ max_workers`. -/
lemma record_success_min (s : ClientState) :
    (record_success s).min_workers = s.min_workers := by
  simp only [record_success]
  split <;> rfl

lemma record_success_max (s : ClientState) :
    (record_success s).max_workers = s.max_workers := by
  simp only [record_success]
  split <;> rfl

lemma record_success_workers (s : ClientState) :
    (record_success s).recommended_workers = s.recommended_workers ∨
    (record_success s).recommended_workers
      = min s.max_workers (s.recommended_workers + 1) := by
  simp only [record_success]
  split
  · right; rfl
  · left; rfl

theorem c3_workers_bounded (s : ClientState) (h : Reachable s) :
    s.min_workers ≤ s.recommended_workers ∧ s.recommended_workers ≤ s.max_workers := by
  induction h with
  | init => decide
  | rate t s hr ih =>
    rw [record_rate_limit_workers]
    constructor
    · show s.min_workers ≤ _
      split
      · exact le_max_left _ _
      · exact ih.1
    · show _ ≤ s.max_workers
      split
      · exact max_le (ih.1.trans ih.2) (by omega)
      · exact ih.2
  | succ s hr ih =>
    rw [record_success_min, record_success_max]
    rcases record_success_workers s with hw | hw <;> rw [hw]
    · exact ih
    · exact ⟨le_min (ih.1.trans ih.2) (by omega), min_le_left _ _⟩
  | reset s hr ih =>
    exact ⟨ih.1.trans ih.2, le_refl _⟩

/-- Concrete instance of C3: the bound holds after a success followed by
a rate-limit event. -/
theorem c3_workers_bounded_witness :
    (record_rate_limit 200 (record_success initClient)).min_workers
      ≤ (record_rate_limit 200 (record_success initClient)).recommended_workers ∧
    (record_rate_limit 200 (record_success initClient)).recommended_workers
      ≤ (record_rate_limit 200 (record_success initClient)).max_workers :=
  c3_workers_bounded _ (Reachable.rate 200 _ (Reachable.succ _ Reachable.init))


/-- C5 as stated is false: `record_success` is not serialised by any
lock, and under the alternating interleaving both threads pass the
`_success_count >= 5` test before either resets the counter, so
`recommended_workers` is double-incremented (8 → 10), whereas a
serialised execution of the same two calls yields 9. -/
theorem c5_counterexample :
    (runSched raceStart raceSched).a.passed = true ∧
    (runSched raceStart raceSched).b.passed = true ∧
    (runSched raceStart raceSched).sh.recommended_workers = 10 ∧
    (runSched raceStart serialSched).sh.recommended_workers = 9 := by
  refine ⟨rfl, rfl, rfl, rfl⟩

/-- C5 amended: the `LLMClient` controller methods are not protected by
any lock, and there exists a two-thread interleaving of `record_success`
in which both threads pass the `>= 5` threshold test and
`recommended_workers` is incremented twice; a serialised execution of
the same two calls increments it only once. -/
theorem c5_amended_race_exists :
    (∃ sched : List Bool,
      (runSched raceStart sched).a.passed = true ∧
      (runSched raceStart sched).b.passed = true ∧
      (runSched raceStart sched).sh.recommended_workers
        = raceStart.sh.recommended_workers + 2) ∧
    (runSched raceStart serialSched).sh.recommended_workers
      = raceStart.sh.recommended_workers + 1 :=
  ⟨⟨[true, false, true, false, true, false, true, false], rfl, rfl, rfl⟩, rfl⟩


lemma call_gemini_counters (w : World) (key : Option String) (model : String)
    (req : Req) (st : St) :
    ((call_gemini w key model req st).2).startAttempts = st.startAttempts ∧
    ((call_gemini w key model req st).2).successCalls = st.successCalls ∧
    ((call_gemini w key model req st).2).sleeps = st.sleeps := by
  simp only [call_gemini]
  split
  · exact ⟨rfl, rfl, rfl⟩
  · split
    · exact ⟨rfl, rfl, rfl⟩
    · exact ⟨rfl, rfl, rfl⟩

lemma call_chat_counters (w : World) (burl : String) (key : Option String)
    (model : String) (req : Req) (st : St) :
    ((call_openai_compatible w burl key model req st).2).startAttempts = st.startAttempts ∧
    ((call_openai_compatible w burl key model req st).2).successCalls = st.successCalls ∧
    ((call_openai_compatible w burl key model req st).2).sleeps = st.sleeps := by
  simp only [call_openai_compatible]
  split
  · exact ⟨rfl, rfl, rfl⟩
  · split
    · exact ⟨rfl, rfl, rfl⟩
    · split
      · exact ⟨rfl, rfl, rfl⟩
      · exact ⟨rfl, rfl, rfl⟩

lemma handleErr_counters (w : World) (e : String) (st : St) :
    (handleErr w e st).startAttempts = st.startAttempts ∧
    (handleErr w e st).successCalls = st.successCalls ∧
    (handleErr w e st).calls = st.calls := by
  simp only [handleErr]
  split
  · exact ⟨rfl, rfl, rfl⟩
  · exact ⟨rfl, rfl, rfl⟩

/-! ## C6: exponential backoff on rate-limit classification -/

/-- C6: inside the dispatch loop, a failure whose message classifies as
rate-limit/quota triggers one `record_rate_limit` and a sleep of exactly
`min(2 ^ N, 16)` seconds, where `N` is the consecutive rate-limit count
after the event was recorded (1 after a decayed window, previous + 1
within the window); any other failure message
leaves the dispatcher state untouched (no sleep, no controller change);
and the error handling happens before the next credential is tried. -/
theorem c6_backoff (w : World) (req : Req) (st : St) (e : String) (N : Nat) :
    (isRateLimitMsg e = true →
      (record_rate_limit (w.clock st.ticks) st.client).rate_limit_count = N →
      (handleErr w e st).sleeps = st.sleeps ++ [min (2 ^ N) 16]) ∧
    (isRateLimitMsg e = false → handleErr w e st = st) ∧
    (∀ (p : Provider) (k : Option String) (ks : List (Option String)) (st1 : St),
      p.name ≠ "gemini" → p.name ≠ "lmstudio" →
      call_openai_compatible w (p.base_url.getD "https://api.openai.com/v1") k p.model req st
        = (.error e, st1) →
      try_keys w p req (k :: ks) st = try_keys w p req ks (handleErr w e st1)) := by
  refine ⟨?_, ?_, ?_⟩
  · intro he hN
    simp only [handleErr, he, if_true]
    rw [hN]
  · intro he
    simp only [handleErr, he, Bool.false_eq_true, if_false]
  · intro p k ks st1 hg hl hcall
    have hgb : (p.name == "gemini") = false := beq_eq_false_iff_ne.mpr hg
    have hlb : (p.name == "lmstudio") = false := beq_eq_false_iff_ne.mpr hl
    simp only [try_keys, hgb, hlb, Bool.false_eq_true, if_false, hcall]

/-- Concrete instance of C6: a first "HTTP 429" failure at `initSt`
(clock reading 100, more than 60 seconds past the initial timestamp 0)
records consecutive count 1 and sleeps `min(2^1, 16) = 2` seconds. -/
theorem c6_backoff_witness :
    isRateLimitMsg "HTTP 429" = true ∧
    (record_rate_limit (wOai.clock initSt.ticks) initSt.client).rate_limit_count = 1 ∧
    (handleErr wOai "HTTP 429" initSt).sleeps = initSt.sleeps ++ [min (2 ^ 1) 16] :=
  ⟨by decide, by decide,
    (c6_backoff wOai reqA initSt "HTTP 429" 1).1 (by decide) (by decide)⟩

/-! ## C7: terminal exhaustion returns the failure sentinel -/


lemma call_gemini_fail {w : World} (hw : ∀ n t, w.geminiRaw n = .ok t → t = "")
    (key : Option String) (model : String) (req : Req) (st : St) :
    ∀ r st1, call_gemini w key model req st = (.ok r, st1) → r = none := by
  intro r st1 h
  simp only [call_gemini] at h
  cases hg : w.geminiRaw st.calls.length with
  | error e =>
    rw [hg] at h
    exact absurd (congrArg Prod.fst h) (by simp)
  | ok t =>
    rw [hg] at h
    have ht : t = "" := hw _ _ hg
    subst ht
    simp only [truthyStr, bne_self_eq_false, Bool.false_eq_true, if_false] at h
    exact (Except.ok.inj (congrArg Prod.fst h)).symm

lemma call_chat_fail {w : World} (hw : ∀ n c cs, w.chatRaw n = .ok (c :: cs) → c = "")
    (burl : String) (key : Option String) (model : String) (req : Req) (st : St) :
    ∀ r st1, call_openai_compatible w burl key model req st = (.ok r, st1) → r = none := by
  intro r st1 h
  simp only [call_openai_compatible] at h
  cases hg : w.chatRaw st.calls.length with
  | error e =>
    rw [hg] at h
    exact absurd (congrArg Prod.fst h) (by simp)
  | ok choices =>
    rw [hg] at h
    cases choices with
    | nil => exact (Except.ok.inj (congrArg Prod.fst h)).symm
    | cons c cs =>
      have hc : c = "" := hw _ _ _ hg
      subst hc
      simp only [truthyStr, bne_self_eq_false, Bool.false_eq_true, if_false] at h
      exact (Except.ok.inj (congrArg Prod.fst h)).symm

lemma try_keys_fail {w : World} (hw : allAttemptsFail w) (p : Provider) (req : Req) :
    ∀ keys st, (try_keys w p req keys st).1 = none := by
  intro keys
  induction keys with
  | nil => intro st; rfl
  | cons key rest ih =>
    intro st
    simp only [try_keys]
    split
    · rcases hc : call_gemini w key p.model req st with ⟨res, st1⟩
      cases res with
      | error e => simp only [hc]; exact ih _
      | ok r =>
        have hr : r = none := call_gemini_fail hw.1 key p.model req st r st1 hc
        subst hr
        simp only [hc, truthyOpt, Bool.false_eq_true, if_false]
        exact ih _
    · split
      · rcases hc : call_openai_compatible w (p.base_url.getD "http://localhost:1234/v1")
            (some "lm-studio") p.model req st with ⟨res, st1⟩
        cases res with
        | ok r =>
          have hr : r = none :=
            call_chat_fail hw.2 _ (some "lm-studio") p.model req st r st1 hc
          subst hr
          simp only [hc]
        | error e =>
          simp only [hc]
          split
          · split
            · rcases hc2 : call_openai_compatible w (p.base_url.getD "http://localhost:1234/v1")
                  (some "lm-studio") p.model req
                  { st1 with startAttempts := st1.startAttempts + 1 } with ⟨res2, st3⟩
              cases res2 with
              | ok r2 =>
                have hr2 : r2 = none :=
                  call_chat_fail hw.2 _ (some "lm-studio") p.model req _ r2 st3 hc2
                subst hr2
                simp only [hc2]
              | error e2 => simp only [hc2]; exact ih _
            · exact ih _
          · exact ih _
      · rcases hc : call_openai_compatible w (p.base_url.getD "https://api.openai.com/v1")
            key p.model req st with ⟨res, st1⟩
        cases res with
        | error e => simp only [hc]; exact ih _
        | ok r =>
          have hr : r = none :=
            call_chat_fail hw.2 _ key p.model req st r st1 hc
          subst hr
          simp only [hc, truthyOpt, Bool.false_eq_true, if_false]
          exact ih _

lemma try_provider_fail {w : World} (hw : allAttemptsFail w) (p : Provider)
    (req : Req) (st : St) : (try_provider w p req st).1 = none := by
  simp only [try_provider]
  split
  · rfl
  · exact try_keys_fail hw p req _ st

/-- C7: when every provider/credential attempt fails (raises, or returns
an empty completion) or is skipped, `generate` returns the `None`
sentinel.  The embedding of `generate` is a total function into
`Option String × St`: every per-attempt error is consumed by the
`except` branch (`handleErr`) inside the key loop, so no exception
crosses `generate`. -/
theorem c7_exhaustion_returns_none (w : World) (hw : allAttemptsFail w)
    (req : Req) (st : St) : (generate w req st).1 = none := by
  unfold generate
  have hgen : ∀ ps stx, (generate_over w req ps stx).1 = none := by
    intro ps
    induction ps with
    | nil => intro stx; rfl
    | cons p rest ih =>
      intro stx
      simp only [generate_over]
      rcases hp : try_provider w p req stx with ⟨res, st1⟩
      have hres : res = none := by
        have := try_provider_fail hw p req stx
        rw [hp] at this
        exact this
      subst hres
      simp only [truthyOpt, Bool.false_eq_true, if_false]
      exact ih _
  exact hgen PROVIDERS st

/-- Concrete instance of C7: with no credentials and both transports
raising non-rate-limit errors, `generate` returns `None`. -/
theorem c7_exhaustion_returns_none_witness :
    allAttemptsFail wFail ∧ (generate wFail reqA initSt).1 = none :=
  have hw : allAttemptsFail wFail :=
    ⟨fun n t h => by exact absurd h (by simp [wFail]),
     fun n c cs h => by exact absurd h (by simp [wFail])⟩
  ⟨hw, c7_exhaustion_returns_none wFail hw reqA initSt⟩

/-! ## C8: providers with configured but unresolvable credentials are skipped -/

lemma resolveKeys_nil {w : World} {ks : List String}
    (h : ∀ k ∈ ks, ∀ v, w.env k = some v → v = "") :
    (ks.filterMap w.env).filter truthyStr = [] := by
  induction ks with
  | nil => rfl
  | cons k rest ih =>
    rw [List.filterMap_cons]
    cases hv : w.env k with
    | none => exact ih fun k2 hk2 v hv2 => h k2 (List.mem_cons_of_mem _ hk2) v hv2
    | some v =>
      have hv0 : v = "" := h k (List.mem_cons_self _ _) v hv
      subst hv0
      rw [List.filter_cons]
      simp only [truthyStr, bne_self_eq_false, Bool.false_eq_true, if_false]
      exact ih fun k2 hk2 v2 hv2 => h k2 (List.mem_cons_of_mem _ hk2) v2 hv2

lemma try_provider_skip {w : World} {p : Provider} {req : Req} {st : St}
    (hname : (p.name != "lmstudio") = true)
    (hrk : resolveKeys w p = []) : try_provider w p req st = (none, st) := by
  simp only [try_provider, hrk, List.isEmpty_nil, Bool.and_true, hname, if_true]

/-- C8: any registry provider with configured credential sources none of
which resolves to a present (truthy) environment value is skipped
entirely — `_try_provider` returns `None` with the dispatcher state (the
transport-call log, the sleeps, and every controller field) unchanged. -/
theorem c8_missing_credentials_skip (w : World) (req : Req) (st : St)
    (p : Provider) (ks : List String) (hp : p ∈ PROVIDERS)
    (hk : p.env_keys = some ks)
    (h : ∀ k ∈ ks, ∀ v, w.env k = some v → v = "") :
    try_provider w p req st = (none, st) := by
  simp only [PROVIDERS, List.mem_cons, List.not_mem_nil, or_false] at hp
  rcases hp with rfl | rfl | rfl | rfl | rfl
  · have hks := Option.some.inj hk
    subst hks
    exact try_provider_skip (by decide) (resolveKeys_nil h)
  · have hks := Option.some.inj hk
    subst hks
    exact try_provider_skip (by decide) (resolveKeys_nil h)
  · have hks := Option.some.inj hk
    subst hks
    exact try_provider_skip (by decide) (resolveKeys_nil h)
  · exact absurd hk (by simp [lmstudioP])
  · have hks := Option.some.inj hk
    subst hks
    exact try_provider_skip (by decide) (resolveKeys_nil h)

/-- Concrete instance of C8: with an empty environment, the cerebras
provider (4 configured env keys) is skipped with no transport call and
no state change. -/
theorem c8_missing_credentials_skip_witness :
    cerebrasP ∈ PROVIDERS ∧
    cerebrasP.env_keys = some ["CEREBRAS_API_KEY_1", "CEREBRAS_API_KEY_2",
      "CEREBRAS_API_KEY_3", "CEREBRAS_API_KEY_4"] ∧
    try_provider wFail cerebrasP reqA initSt = (none, initSt) := by
  refine ⟨by decide, by decide, ?_⟩
  exact c8_missing_credentials_skip wFail reqA initSt cerebrasP _ (by decide) rfl
    (fun k hk v hv => by exact absurd hv (by simp [wFail]))

/-! ## C10: a non-null `generate` result is never the empty string -/

lemma generate_over_some_ne {w : World} {req : Req} :
    ∀ (ps : List Provider) (st : St) (r : String),
      (generate_over w req ps st).1 = some r → r ≠ "" := by
  intro ps
  induction ps with
  | nil => intro st r h; exact absurd h (by simp [generate_over])
  | cons p rest ih =>
    intro st r h
    simp only [generate_over] at h
    rcases hp : try_provider w p req st with ⟨res, st1⟩
    rw [hp] at h
    dsimp only at h
    by_cases ht : truthyOpt res = true
    · rw [if_pos ht] at h
      have hres : res = some r := h
      rw [hres] at ht
      simp only [truthyOpt, truthyStr] at ht
      exact bne_iff_ne.mp ht
    · rw [if_neg ht] at h
      exact ih _ _ h

/-- C10: whenever `generate` returns a non-null result, the returned
string is non-empty — each transport gates its return on a truthy
completion, and the dispatch loop additionally returns a result only
when it is truthy. -/
theorem c10_success_nonempty (w : World) (req : Req) (st : St) (r : String)
    (h : (generate w req st).1 = some r) : r ≠ "" :=
  generate_over_some_ne PROVIDERS st r h

/-- Concrete instance of C10: a successful run returns "hello", which is
non-empty. -/
theorem c10_success_nonempty_witness :
    (generate wGem reqA initSt).1 = some "hello" ∧ "hello" ≠ "" :=
  ⟨rfl, c10_success_nonempty wGem reqA initSt "hello" rfl⟩

/-! ## C9: lmstudio bring-up is connection-triggered, one-shot, one-retry -/

lemma try_keys_start_nonlms {w : World} {p : Provider} {req : Req}
    (hl : (p.name == "lmstudio") = false) :
    ∀ (keys : List (Option String)) (st : St),
      ((try_keys w p req keys st).2).startAttempts = st.startAttempts := by
  intro keys
  induction keys with
  | nil => intro st; rfl
  | cons key rest ih =>
    intro st
    simp only [try_keys, hl, Bool.false_eq_true, if_false]
    split
    · rcases hc : call_gemini w key p.model req st with ⟨res, st1⟩
      have h1 := (call_gemini_counters w key p.model req st).1
      rw [hc] at h1
      cases res with
      | ok r =>
        simp only [hc]
        by_cases ht : truthyOpt r = true
        · rw [if_pos ht]
          simpa [recordSuccessSt] using h1
        · rw [if_neg ht]
          rw [ih st1]
          exact h1
      | error e =>
        simp only [hc]
        rw [ih _, (handleErr_counters w e st1).1]
        exact h1
    · rcases hc : call_openai_compatible w (p.base_url.getD "https://api.openai.com/v1")
          key p.model req st with ⟨res, st1⟩
      have h1 := (call_chat_counters w (p.base_url.getD "https://api.openai.com/v1")
        key p.model req st).1
      rw [hc] at h1
      cases res with
      | ok r =>
        simp only [hc]
        by_cases ht : truthyOpt r = true
        · rw [if_pos ht]
          simpa [recordSuccessSt] using h1
        · rw [if_neg ht]
          rw [ih st1]
          exact h1
      | error e =>
        simp only [hc]
        rw [ih _, (handleErr_counters w e st1).1]
        exact h1

lemma try_provider_start_nonlms {w : World} {p : Provider} {req : Req} {st : St}
    (hl : (p.name == "lmstudio") = false) :
    ((try_provider w p req st).2).startAttempts = st.startAttempts := by
  simp only [try_provider]
  split
  · rfl
  · exact try_keys_start_nonlms hl _ _

lemma try_provider_start_lms {w : World} {p : Provider} {req : Req} {st : St}
    (hname : p.name = "lmstudio") (hkeys : p.env_keys = none) :
    ((try_provider w p req st).2).startAttempts ≤ st.startAttempts + 1 := by
  have hrk : resolveKeys w p = [] := by simp only [resolveKeys, hkeys]
  have hne : (p.name != "lmstudio") = false := by rw [hname]; rfl
  have hg : (p.name == "gemini") = false := by rw [hname]; rfl
  have hlm : (p.name == "lmstudio") = true := by rw [hname]; rfl
  simp only [try_provider, hrk, List.isEmpty_nil, Bool.and_true, hne,
    Bool.false_eq_true, if_false, if_true, try_keys, hg, hlm]
  rcases hc : call_openai_compatible w (p.base_url.getD "http://localhost:1234/v1")
      (some "lm-studio") p.model req st with ⟨res, st1⟩
  have h1 : st1.startAttempts = st.startAttempts := by
    have hb := (call_chat_counters w (p.base_url.getD "http://localhost:1234/v1")
      (some "lm-studio") p.model req st).1
    rw [hc] at hb
    exact hb
  cases res with
  | ok r =>
    simp only [hc]
    omega
  | error e =>
    simp only [hc]
    split
    · split
      · rcases hc2 : call_openai_compatible w (p.base_url.getD "http://localhost:1234/v1")
            (some "lm-studio") p.model req
            { st1 with startAttempts := st1.startAttempts + 1 } with ⟨res2, st3⟩
        have h2 : st3.startAttempts = st1.startAttempts + 1 := by
          have hb := (call_chat_counters w (p.base_url.getD "http://localhost:1234/v1")
            (some "lm-studio") p.model req
            { st1 with startAttempts := st1.startAttempts + 1 }).1
          rw [hc2] at hb
          exact hb
        cases res2 with
        | ok r2 =>
          simp only [hc2]
          omega
        | error e2 =>
          simp only [hc2]
          have h3 : (handleErr w e2 st3).startAttempts = st3.startAttempts :=
            (handleErr_counters w e2 st3).1
          try dsimp only
          omega
      · have h3 : (handleErr w e { st1 with startAttempts := st1.startAttempts + 1 }).startAttempts
            = st1.startAttempts + 1 :=
          (handleErr_counters w e { st1 with startAttempts := st1.startAttempts + 1 }).1
        try dsimp only
        omega
    · have h3 : (handleErr w e st1).startAttempts = st1.startAttempts :=
        (handleErr_counters w e st1).1
      try dsimp only
      omega

lemma generate_over_start_le {w : World} {req : Req} :
    ∀ (ps : List Provider) (st : St),
      (∀ p ∈ ps, p.name = "lmstudio" → p.env_keys = none) →
      ((generate_over w req ps st).2).startAttempts
        ≤ st.startAttempts + ps.countP (fun p => p.name == "lmstudio") := by
  intro ps
  induction ps with
  | nil =>
    intro st h
    simp [generate_over]
  | cons p rest ih =>
    intro st h
    simp only [generate_over]
    rcases hp : try_provider w p req st with ⟨res, st1⟩
    dsimp only
    have hrest : ∀ q ∈ rest, q.name = "lmstudio" → q.env_keys = none :=
      fun q hq => h q (List.mem_cons_of_mem _ hq)
    rw [List.countP_cons]
    by_cases hname : p.name = "lmstudio"
    · have hfp : (p.name == "lmstudio") = true := beq_iff_eq.mpr hname
      have hst1 : st1.startAttempts ≤ st.startAttempts + 1 := by
        have hb := @try_provider_start_lms w p req st
          hname (h p (List.mem_cons_self _ _) hname)
        rw [hp] at hb
        exact hb
      simp only [hfp, if_true]
      by_cases ht : truthyOpt res = true
      · rw [if_pos ht]
        dsimp only
        omega
      · rw [if_neg ht]
        have := ih st1 hrest
        omega
    · have hfp : (p.name == "lmstudio") = false := beq_eq_false_iff_ne.mpr hname
      have hst1 : st1.startAttempts = st.startAttempts := by
        have hb := @try_provider_start_nonlms w p req st hfp
        rw [hp] at hb
        exact hb
      simp only [hfp, Bool.false_eq_true, if_false]
      by_cases ht : truthyOpt res = true
      · rw [if_pos ht]
        dsimp only
        omega
      · rw [if_neg ht]
        have := ih st1 hrest
        omega

/-- C9: within one `generate` call, the lmstudio branch (i) returns any
non-raising transport result directly with no bring-up, (ii) performs no
bring-up on a non-connection-classified error (the error goes to the
ordinary `except` handling), (iii) on a connection-classified error
invokes `_auto_start_lmstudio` exactly once; if the bring-up fails, the
original connection error is the one classified (no retry), and if it
succeeds, the original request is retried exactly once, whose raised
error (if any) is then classified with no further bring-up; and (iv) a
whole `generate` call performs at most one bring-up. -/
theorem c9_lmstudio_bringup (w : World) (req : Req) (st : St) :
    (∀ r st1,
      call_openai_compatible w (lmstudioP.base_url.getD "http://localhost:1234/v1")
          (some "lm-studio") lmstudioP.model req st = (.ok r, st1) →
      try_provider w lmstudioP req st = (r, st1) ∧
        st1.startAttempts = st.startAttempts) ∧
    (∀ e st1,
      call_openai_compatible w (lmstudioP.base_url.getD "http://localhost:1234/v1")
          (some "lm-studio") lmstudioP.model req st = (.error e, st1) →
      (isConnMsg e = false →
        try_provider w lmstudioP req st = (none, handleErr w e st1)) ∧
      (isConnMsg e = true →
        ((try_provider w lmstudioP req st).2).startAttempts = st.startAttempts + 1 ∧
        (w.lmsStart st1.startAttempts = false →
          try_provider w lmstudioP req st
            = (none, handleErr w e { st1 with startAttempts := st1.startAttempts + 1 })) ∧
        (w.lmsStart st1.startAttempts = true →
          (∀ r2 st3,
            call_openai_compatible w (lmstudioP.base_url.getD "http://localhost:1234/v1")
                (some "lm-studio") lmstudioP.model req
                { st1 with startAttempts := st1.startAttempts + 1 } = (.ok r2, st3) →
            try_provider w lmstudioP req st = (r2, st3)) ∧
          (∀ e2 st3,
            call_openai_compatible w (lmstudioP.base_url.getD "http://localhost:1234/v1")
                (some "lm-studio") lmstudioP.model req
                { st1 with startAttempts := st1.startAttempts + 1 } = (.error e2, st3) →
            try_provider w lmstudioP req st = (none, handleErr w e2 st3))))) ∧
    ((generate w req st).2).startAttempts ≤ st.startAttempts + 1 := by
  have hunf : try_provider w lmstudioP req st = try_keys w lmstudioP req [none] st := rfl
  refine ⟨?_, ?_, ?_⟩
  · intro r st1 hcall
    constructor
    · rw [hunf]
      simp only [try_keys, show (lmstudioP.name == "gemini") = false from rfl,
        show (lmstudioP.name == "lmstudio") = true from rfl, Bool.false_eq_true,
        if_false, if_true, hcall]
    · have hb := (call_chat_counters w (lmstudioP.base_url.getD "http://localhost:1234/v1")
        (some "lm-studio") lmstudioP.model req st).1
      rw [hcall] at hb
      exact hb
  · intro e st1 hcall
    have hb1 : st1.startAttempts = st.startAttempts := by
      have hb := (call_chat_counters w (lmstudioP.base_url.getD "http://localhost:1234/v1")
        (some "lm-studio") lmstudioP.model req st).1
      rw [hcall] at hb
      exact hb
    refine ⟨?_, ?_⟩
    · intro hconn
      rw [hunf]
      simp only [try_keys, show (lmstudioP.name == "gemini") = false from rfl,
        show (lmstudioP.name == "lmstudio") = true from rfl, Bool.false_eq_true,
        if_false, if_true, hcall, hconn]
    · intro hconn
      refine ⟨?_, ?_, ?_⟩
      · rw [hunf]
        simp only [try_keys, show (lmstudioP.name == "gemini") = false from rfl,
          show (lmstudioP.name == "lmstudio") = true from rfl, Bool.false_eq_true,
          if_false, if_true, hcall, hconn]
        by_cases hl : w.lmsStart st1.startAttempts = true
        · rw [if_pos hl]
          rcases hc2 : call_openai_compatible w (lmstudioP.base_url.getD "http://localhost:1234/v1")
              (some "lm-studio") lmstudioP.model req
              { st1 with startAttempts := st1.startAttempts + 1 } with ⟨res2, st3⟩
          have h2 : st3.startAttempts = st1.startAttempts + 1 := by
            have hb := (call_chat_counters w (lmstudioP.base_url.getD "http://localhost:1234/v1")
              (some "lm-studio") lmstudioP.model req
              { st1 with startAttempts := st1.startAttempts + 1 }).1
            rw [hc2] at hb
            exact hb
          cases res2 with
          | ok r2 =>
            simp only [hc2]
            omega
          | error e2 =>
            simp only [hc2]
            have h3 : (handleErr w e2 st3).startAttempts = st3.startAttempts :=
              (handleErr_counters w e2 st3).1
            try dsimp only
            omega
        · rw [if_neg hl]
          have h3 : (handleErr w e { st1 with startAttempts := st1.startAttempts + 1 }).startAttempts
              = st1.startAttempts + 1 :=
            (handleErr_counters w e { st1 with startAttempts := st1.startAttempts + 1 }).1
          try dsimp only
          omega
      · intro hl
        rw [hunf]
        simp only [try_keys, show (lmstudioP.name == "gemini") = false from rfl,
          show (lmstudioP.name == "lmstudio") = true from rfl, Bool.false_eq_true,
          if_false, if_true, hcall, hconn, hl]
      · intro hl
        constructor
        · intro r2 st3 hc2
          rw [hunf]
          simp only [try_keys, show (lmstudioP.name == "gemini") = false from rfl,
            show (lmstudioP.name == "lmstudio") = true from rfl, Bool.false_eq_true,
            if_false, if_true, hcall, hconn, hl, hc2]
        · intro e2 st3 hc2
          rw [hunf]
          simp only [try_keys, show (lmstudioP.name == "gemini") = false from rfl,
            show (lmstudioP.name == "lmstudio") = true from rfl, Bool.false_eq_true,
            if_false, if_true, hcall, hconn, hl, hc2]
  · have hcnt : PROVIDERS.countP (fun p => p.name == "lmstudio") = 1 := rfl
    have hmem : ∀ p ∈ PROVIDERS, p.name = "lmstudio" → p.env_keys = none := by decide
    have hb := @generate_over_start_le w req PROVIDERS st hmem
    rw [hcnt] at hb
    exact hb


/-- Concrete instance of C9: the lmstudio transport raises a
connection-refused error, the bring-up fails, and the dispatcher
classifies the original connection error with exactly one bring-up
attempt and no retry. -/
theorem c9_lmstudio_bringup_witness :
    call_openai_compatible wFail (lmstudioP.base_url.getD "http://localhost:1234/v1")
        (some "lm-studio") lmstudioP.model reqA initSt
      = (.error "Connection refused", { initSt with calls := [lmsCallRec] }) ∧
    isConnMsg "Connection refused" = true ∧
    wFail.lmsStart 0 = false ∧
    try_provider wFail lmstudioP reqA initSt
      = (none, handleErr wFail "Connection refused"
          { initSt with
            calls := [lmsCallRec]
            startAttempts := 1 }) := by
  refine ⟨rfl, by decide, rfl, ?_⟩
  exact (((c9_lmstudio_bringup wFail reqA initSt).2.1 "Connection refused"
    { initSt with calls := [lmsCallRec] } rfl).2 (by decide)).2.1 rfl

/-! ## C1: first-success semantics of the dispatch loop -/

lemma try_keys_successCalls_falsy {w : World} {p : Provider} {req : Req} :
    ∀ (keys : List (Option String)) (st : St),
      truthyOpt (try_keys w p req keys st).1 = false →
      ((try_keys w p req keys st).2).successCalls = st.successCalls := by
  intro keys
  induction keys with
  | nil => intro st _; rfl
  | cons key rest ih =>
    intro st h
    cases hg : (p.name == "gemini") with
    | true =>
      simp only [try_keys, hg, if_true] at h ⊢
      rcases hc : call_gemini w key p.model req st with ⟨res, st1⟩
      have hsc : st1.successCalls = st.successCalls := by
        have hb := (call_gemini_counters w key p.model req st).2.1
        rw [hc] at hb
        exact hb
      rw [hc] at h
      cases res with
      | ok r =>
        dsimp only at h ⊢
        by_cases ht : truthyOpt r = true
        · rw [if_pos ht] at h
          exact absurd h (by simp [ht])
        · rw [if_neg ht] at h ⊢
          rw [ih st1 h]
          exact hsc
      | error e =>
        dsimp only at h ⊢
        rw [ih _ h, (handleErr_counters w e st1).2.1]
        exact hsc
    | false =>
      cases hl : (p.name == "lmstudio") with
      | true =>
        simp only [try_keys, hg, hl, Bool.false_eq_true, if_false, if_true] at h ⊢
        rcases hc : call_openai_compatible w (p.base_url.getD "http://localhost:1234/v1")
            (some "lm-studio") p.model req st with ⟨res, st1⟩
        have hsc : st1.successCalls = st.successCalls := by
          have hb := (call_chat_counters w (p.base_url.getD "http://localhost:1234/v1")
            (some "lm-studio") p.model req st).2.1
          rw [hc] at hb
          exact hb
        rw [hc] at h
        cases res with
        | ok r => exact hsc
        | error e =>
          dsimp only at h ⊢
          by_cases hcm : isConnMsg e = true
          · rw [if_pos hcm] at h ⊢
            by_cases hls : w.lmsStart st1.startAttempts = true
            · rw [if_pos hls] at h ⊢
              rcases hc2 : call_openai_compatible w (p.base_url.getD "http://localhost:1234/v1")
                  (some "lm-studio") p.model req
                  { st1 with startAttempts := st1.startAttempts + 1 } with ⟨res2, st3⟩
              have hsc2 : st3.successCalls = st1.successCalls := by
                have hb := (call_chat_counters w (p.base_url.getD "http://localhost:1234/v1")
                  (some "lm-studio") p.model req
                  { st1 with startAttempts := st1.startAttempts + 1 }).2.1
                rw [hc2] at hb
                exact hb
              rw [hc2] at h
              cases res2 with
              | ok r2 =>
                dsimp only at h ⊢
                omega
              | error e2 =>
                dsimp only at h ⊢
                rw [ih _ h, (handleErr_counters w e2 st3).2.1]
                omega
            · rw [if_neg hls] at h ⊢
              rw [ih _ h, (handleErr_counters w e
                { st1 with startAttempts := st1.startAttempts + 1 }).2.1]
              exact hsc
          · rw [if_neg hcm] at h ⊢
            rw [ih _ h, (handleErr_counters w e st1).2.1]
            exact hsc
      | false =>
        simp only [try_keys, hg, hl, Bool.false_eq_true, if_false] at h ⊢
        rcases hc : call_openai_compatible w (p.base_url.getD "https://api.openai.com/v1")
            key p.model req st with ⟨res, st1⟩
        have hsc : st1.successCalls = st.successCalls := by
          have hb := (call_chat_counters w (p.base_url.getD "https://api.openai.com/v1")
            key p.model req st).2.1
          rw [hc] at hb
          exact hb
        rw [hc] at h
        cases res with
        | ok r =>
          dsimp only at h ⊢
          by_cases ht : truthyOpt r = true
          · rw [if_pos ht] at h
            exact absurd h (by simp [ht])
          · rw [if_neg ht] at h ⊢
            rw [ih st1 h]
            exact hsc
        | error e =>
          dsimp only at h ⊢
          rw [ih _ h, (handleErr_counters w e st1).2.1]
          exact hsc

/-- C1 as stated is false on the lmstudio path: with no credentials
configured (so cerebras, gemini and openrouter are skipped), the
lmstudio transport returns the non-empty text "hello" and `generate`
returns it immediately, yet no success is recorded in the controller —
`record_success` is never invoked (ghost counter `successCalls` stays 0
and `_success_count` stays 0), because line 211 of `llm_client.py`
returns the transport result directly. -/
theorem c1_counterexample :
    (generate wLms reqA initSt).1 = some "hello" ∧
    (generate wLms reqA initSt).2.successCalls = 0 ∧
    (generate wLms reqA initSt).2.client.success_count = 0 :=
  ⟨rfl, rfl, rfl⟩

/-- C1 amended: providers are tried in ascending priority order (the
registry is priority-sorted and iterated in order, and a falsy provider
outcome passes the updated state to the rest of the registry);
credentials are tried in listed order; on the first provider/credential
attempt whose transport returns non-empty text through the gemini or
generic OpenAI-compatible path, exactly one success is recorded, the
current provider is set, and that text is returned immediately with no
further credential or provider attempted; on the lmstudio path the text
is returned immediately and the provider label is set, but no success is
recorded; and a provider turn whose outcome is falsy records no
success. -/
theorem c1_amended_first_success (w : World) (req : Req) (st : St) :
    (PROVIDERS.map Provider.priority = [1, 2, 3, 4, 5] ∧
      List.Sorted (· < ·) (PROVIDERS.map Provider.priority)) ∧
    (∀ (p : Provider) (ps : List Provider),
      truthyOpt (try_provider w p req st).1 = false →
      generate_over w req (p :: ps) st
        = generate_over w req ps (try_provider w p req st).2) ∧
    (∀ (p : Provider) (ps : List Provider) (k : String) (ks : List String) (r : String),
      p.name ≠ "gemini" → p.name ≠ "lmstudio" →
      resolveKeys w p = k :: ks →
      w.chatRaw st.calls.length = .ok [r] → r ≠ "" →
      generate_over w req (p :: ps) st =
        (some r,
          { st with
            client := record_success { st.client with
              current_provider :=
                some (providerLabel (p.base_url.getD "https://api.openai.com/v1")) }
            calls := st.calls ++ [⟨"chat", some (p.base_url.getD "https://api.openai.com/v1"), some k, p.model, req⟩]
            successCalls := st.successCalls + 1 })) ∧
    (∀ (p : Provider) (ps : List Provider) (k : String) (ks : List String) (r : String),
      p.name = "gemini" →
      resolveKeys w p = k :: ks →
      w.geminiRaw st.calls.length = .ok r → r ≠ "" →
      generate_over w req (p :: ps) st =
        (some r,
          { st with
            client := record_success { st.client with current_provider := some "gemini" }
            calls := st.calls ++ [⟨"gemini", none, some k, p.model, req⟩]
            successCalls := st.successCalls + 1 })) ∧
    (∀ (ps : List Provider) (r : String),
      w.chatRaw st.calls.length = .ok [r] → r ≠ "" →
      generate_over w req (lmstudioP :: ps) st =
        (some r,
          { st with
            client := { st.client with current_provider := some "lmstudio" }
            calls := st.calls ++ [⟨"chat", some "http://localhost:1234/v1", some "lm-studio", lmstudioP.model, req⟩] })) ∧
    (∀ p : Provider,
      truthyOpt (try_provider w p req st).1 = false →
      ((try_provider w p req st).2).successCalls = st.successCalls) := by
  refine ⟨⟨rfl, by decide⟩, ?_, ?_, ?_, ?_, ?_⟩
  · intro p ps hfalsy
    simp only [generate_over]
    rcases htp : try_provider w p req st with ⟨res, st1⟩
    rw [htp] at hfalsy
    dsimp only at hfalsy ⊢
    rw [if_neg (by rw [hfalsy]; exact Bool.false_ne_true)]
  · intro p ps k ks r hg hl hres hok hr
    have hgb : (p.name == "gemini") = false := beq_eq_false_iff_ne.mpr hg
    have hlb : (p.name == "lmstudio") = false := beq_eq_false_iff_ne.mpr hl
    have htr : truthyStr r = true := bne_iff_ne.mpr hr
    have hcall : call_openai_compatible w (p.base_url.getD "https://api.openai.com/v1")
        (some k) p.model req st
        = (.ok (some r),
          { st with
            client := { st.client with
              current_provider :=
                some (providerLabel (p.base_url.getD "https://api.openai.com/v1")) }
            calls := st.calls ++ [⟨"chat", some (p.base_url.getD "https://api.openai.com/v1"), some k, p.model, req⟩] }) := by
      simp only [call_openai_compatible, hok, htr, if_true]
    have htp : try_provider w p req st
        = (some r,
          { st with
            client := record_success { st.client with
              current_provider :=
                some (providerLabel (p.base_url.getD "https://api.openai.com/v1")) }
            calls := st.calls ++ [⟨"chat", some (p.base_url.getD "https://api.openai.com/v1"), some k, p.model, req⟩]
            successCalls := st.successCalls + 1 }) := by
      simp only [try_provider, hres, List.isEmpty_cons, Bool.and_false,
        Bool.false_eq_true, if_false, List.map_cons]
      simp only [try_keys, hgb, hlb, Bool.false_eq_true, if_false, hcall,
        truthyOpt, htr, if_true, recordSuccessSt]
    simp only [generate_over, htp, truthyOpt, htr, if_true]
  · intro p ps k ks r hname hres hok hr
    have hgb : (p.name == "gemini") = true := beq_iff_eq.mpr hname
    have htr : truthyStr r = true := bne_iff_ne.mpr hr
    have hcall : call_gemini w (some k) p.model req st
        = (.ok (some r),
          { st with
            client := { st.client with current_provider := some "gemini" }
            calls := st.calls ++ [⟨"gemini", none, some k, p.model, req⟩] }) := by
      simp only [call_gemini, hok, htr, if_true]
    have htp : try_provider w p req st
        = (some r,
          { st with
            client := record_success { st.client with current_provider := some "gemini" }
            calls := st.calls ++ [⟨"gemini", none, some k, p.model, req⟩]
            successCalls := st.successCalls + 1 }) := by
      simp only [try_provider, hres, List.isEmpty_cons, Bool.and_false,
        Bool.false_eq_true, if_false, List.map_cons]
      simp only [try_keys, hgb, if_true, hcall, truthyOpt, htr, recordSuccessSt]
    simp only [generate_over, htp, truthyOpt, htr, if_true]
  · intro ps r hok hr
    have htr : truthyStr r = true := bne_iff_ne.mpr hr
    have hcall : call_openai_compatible w "http://localhost:1234/v1"
        (some "lm-studio") lmstudioP.model req st
        = (.ok (some r),
          { st with
            client := { st.client with current_provider := some "lmstudio" }
            calls := st.calls ++ [⟨"chat", some "http://localhost:1234/v1", some "lm-studio", lmstudioP.model, req⟩] }) := by
      simp only [call_openai_compatible, hok, htr, if_true]
      rfl
    have htp : try_provider w lmstudioP req st
        = (some r,
          { st with
            client := { st.client with current_provider := some "lmstudio" }
            calls := st.calls ++ [⟨"chat", some "http://localhost:1234/v1", some "lm-studio", lmstudioP.model, req⟩] }) := by
      have hunf : try_provider w lmstudioP req st = try_keys w lmstudioP req [none] st := rfl
      rw [hunf]
      simp only [try_keys, show (lmstudioP.name == "gemini") = false from rfl,
        show (lmstudioP.name == "lmstudio") = true from rfl, Bool.false_eq_true,
        if_false, if_true,
        show lmstudioP.base_url.getD "http://localhost:1234/v1"
          = "http://localhost:1234/v1" from rfl, hcall]
    simp only [generate_over, htp, truthyOpt, htr, if_true]
  · intro p hfalsy
    simp only [try_provider] at hfalsy ⊢
    by_cases hskip : (p.name != "lmstudio" && (resolveKeys w p).isEmpty) = true
    · rw [if_pos hskip]
    · rw [if_neg hskip] at hfalsy ⊢
      exact try_keys_successCalls_falsy _ _ hfalsy

/-- Concrete instance of the amended C1: with only `OPENAI_API_KEY` set
and the transport answering "hello", the openai provider's first
credential succeeds, exactly one success is recorded, the provider label
is set, and exactly one transport call is made. -/
theorem c1_amended_first_success_witness :
    openaiP.name ≠ "gemini" ∧ openaiP.name ≠ "lmstudio" ∧
    resolveKeys wOai openaiP = ["KEY"] ∧
    wOai.chatRaw initSt.calls.length = .ok ["hello"] ∧
    generate_over wOai reqA [openaiP] initSt
      = (some "hello",
        { initSt with
          client := record_success { initSt.client with
            current_provider :=
              some (providerLabel (openaiP.base_url.getD "https://api.openai.com/v1")) }
          calls := initSt.calls ++
            [⟨"chat", some (openaiP.base_url.getD "https://api.openai.com/v1"),
              some "KEY", openaiP.model, reqA⟩]
          successCalls := initSt.successCalls + 1 }) := by
  refine ⟨by decide, by decide, by decide, rfl, ?_⟩
  exact (c1_amended_first_success wOai reqA initSt).2.2.1 openaiP [] "KEY" [] "hello"
    (by decide) (by decide) (by decide) rfl (by decide)
